import Mathlib

/-! ## users-go: account lifecycle and session tokens

A shallow embedding of the HTTP handlers of `router_public.go`
(`/register`, `/login`, `/activate`, `/`) and `router_internal.go`
(`/authorize/`).  The relational store and the key-value cache are explicit
state that every handler receives and returns; random draws, the clock and the
external libraries (bcrypt, JWT signing) are inputs of the handlers.
-/

set_option autoImplicit false

namespace Users

/-! ## Library functions used by the handlers -/

/-- One octet, as produced by `crypto/rand`. -/
abbrev Byte := Fin 256

/-- A Go array `[n]byte`. -/
abbrev Bytes (n : Nat) := { l : List Byte // l.length = n }

/-- Instants and durations, in nanoseconds (`time.Time`, `time.Duration`). -/
abbrev Time := Int

/-- The duration `time.Hour`. -/
def Hour : Time := 3600 * 1000000000

/-- Scanning loop of `strings.Split` for a separator of positive length: `skip`
counts the characters of a separator occurrence that are still to be dropped,
`acc` is the current piece in reverse. -/
def splitLoop (sep : List Char) : Nat → List Char → List Char → List (List Char)
  | _, [], acc => [acc.reverse]
  | skip + 1, _ :: cs, acc => splitLoop sep skip cs acc
  | 0, c :: cs, acc =>
    if sep.isPrefixOf (c :: cs) then acc.reverse :: splitLoop sep (sep.length - 1) cs []
    else splitLoop sep 0 cs (c :: acc)

/-- Go `strings.Split(s, sep)`: the pieces of `s` between the leftmost
non-overlapping occurrences of `sep`; with an empty `sep` it explodes `s` into
its characters. -/
def Split (s sep : String) : List String :=
  if sep.data = [] then s.data.map fun c => String.mk [c]
  else (splitLoop sep.data 0 s.data []).map String.mk

/-- The constant `hextable` of `encoding/hex`, as its characters. -/
def hextable : List Char := "0123456789abcdef".data

/-- Go `hex.EncodeToString`: two digits per octet, `hextable[v>>4]` then
`hextable[v&0x0f]`. -/
def EncodeToString (src : List Byte) : String :=
  String.mk (src.flatMap fun v =>
    [hextable.getD (v.val >>> 4) '0', hextable.getD (v.val &&& 0x0f) '0'])

/-- The package `bcrypt`, as far as the handlers use it.  An error value is
`none` for Go's `nil`. -/
structure Bcrypt where
  GenerateFromPassword : String → Nat → Except String String
  CompareHashAndPassword : String → String → Option String

/-- The constant `bcrypt.DefaultCost`. -/
def DefaultCost : Nat := 10

/-- The claim set `jwt.StandardClaims`, with the two fields the login handler
fills in. -/
structure StandardClaims where
  ExpiresAt : Int
  Issuer : String
deriving DecidableEq, Repr

/-! ## The user store -/

/-- Modelled from the spec: the record `models.User` of the generated `models`
package, which the sources import but do not contain.  The fields are the ones
the handlers read or write. -/
structure User where
  UID : String
  Username : String
  Password : String
  Activated : Bool
  ActivationCode : String
  ActivationCodeValidity : Time
deriving DecidableEq, Repr

/-- Modelled from the spec: the column `email` that the login and activation
queries filter on.  The schema is not part of the sources; the spec (§3) has a
single natural key, the email, and the register handler stores the email of the
request in the field `Username`. -/
def emailColumn (u : User) : String := u.Username

/-- Errors of `database/sql` and of the driver. -/
inductive SqlError where
  | ErrNoRows
  | UniqueViolation
  | Driver (msg : String)
deriving DecidableEq, Repr

/-- Statements received by the store. -/
inductive Stmt where
  | select
  | insert (uid : String)
  | update (uid : String)
deriving DecidableEq, Repr

/-- Modelled from the spec: the user store behind `*sql.DB` (§4.3).  `rows` is
the table, `log` the statements received so far; a fault, when set, makes every
read (`queryFault`) or every write (`execFault`) fail with a driver error. -/
structure DB where
  rows : List User
  log : List Stmt
  queryFault : Option String
  execFault : Option String
deriving DecidableEq, Repr

/-- Modelled from the spec: `models.Users(qm.Where(...)).One(db)`, the first
row that satisfies the filter (`findByEmail`, `findByEmailAndActivationCode` of
§4.3).  The result is the Go pair `(user, err)`: no row gives
`sql.ErrNoRows`. -/
def One (db : DB) (filter : User → Bool) : DB × Option User × Option SqlError :=
  let db1 := { db with log := db.log ++ [Stmt.select] }
  match db.queryFault with
  | some msg => (db1, none, some (SqlError.Driver msg))
  | none =>
    match db.rows.find? filter with
    | some u => (db1, some u, none)
    | none => (db1, none, some SqlError.ErrNoRows)

/-- Modelled from the spec: `models.Users().All(db)` (`listAll` of §4.3). -/
def All (db : DB) : DB × List User × Option SqlError :=
  let db1 := { db with log := db.log ++ [Stmt.select] }
  match db.queryFault with
  | some msg => (db1, [], some (SqlError.Driver msg))
  | none => (db1, db.rows, none)

/-- Modelled from the spec: `m.Insert(db, boil.Infer())` (`insert` of §4.3):
the email is unique across all users, and a duplicate is a conflict. -/
def Insert (m : User) (db : DB) : DB × Option SqlError :=
  let db1 := { db with log := db.log ++ [Stmt.insert m.UID] }
  match db.execFault with
  | some msg => (db1, some (SqlError.Driver msg))
  | none =>
    if db.rows.any (fun u => emailColumn u = emailColumn m) then
      (db1, some SqlError.UniqueViolation)
    else ({ db1 with rows := db.rows ++ [m] }, none)

/-- Modelled from the spec: `user.Update(db, boil.Infer())` (`markActivated`
of §4.3): the row with the primary key of `m` takes the values of `m`. -/
def Update (m : User) (db : DB) : DB × Option SqlError :=
  let db1 := { db with log := db.log ++ [Stmt.update m.UID] }
  match db.execFault with
  | some msg => (db1, some (SqlError.Driver msg))
  | none => ({ db1 with rows := db.rows.map fun u => if u.UID = m.UID then m else u }, none)

/-! ## The session token cache -/

/-- Errors of the cache client: `redis.Nil` for a missing key, or a
connection failure. -/
inductive RedisError where
  | Nil
  | Conn (msg : String)
deriving DecidableEq, Repr

/-- Commands received by the cache. -/
inductive Cmd where
  | get (key : String)
  | set (key value : String) (ttl : Time)
deriving DecidableEq, Repr

/-- The key-value cache behind `*redis.Client`: entries `(key, value, deadline)`,
the commands received so far, and faults that make every `GET` or every `SET`
fail. -/
structure Redis where
  entries : List (String × String × Time)
  log : List Cmd
  getFault : Option String
  setFault : Option String
deriving DecidableEq, Repr

/-- The command `client.Set(key, value, ttl)` issued at instant `now`. -/
def Redis.Set (client : Redis) (key value : String) (ttl now : Time) :
    Redis × Option RedisError :=
  let c1 := { client with log := client.log ++ [Cmd.set key value ttl] }
  match client.setFault with
  | some msg => (c1, some (RedisError.Conn msg))
  | none =>
    ({ c1 with entries := (key, value, now + ttl) :: client.entries.filter fun e => e.1 ≠ key },
      none)

/-- The command `client.Get(key).Result()` issued at instant `now`: an entry
is readable until its deadline. -/
def Redis.Get (client : Redis) (key : String) (now : Time) :
    Redis × String × Option RedisError :=
  let c1 := { client with log := client.log ++ [Cmd.get key] }
  match client.getFault with
  | some msg => (c1, "", some (RedisError.Conn msg))
  | none =>
    match client.entries.find? fun e => e.1 = key ∧ now < e.2.2 with
    | some e => (c1, e.2.1, none)
    | none => (c1, "", some RedisError.Nil)

/-! ## HTTP requests and responses -/

/-- What `ioutil.ReadAll` followed by `json.Unmarshal` makes of a request
body: a read error, a JSON error, or the decoded value. -/
inductive Payload (α : Type) where
  | readError : Payload α
  | malformed : Payload α
  | decoded : α → Payload α
deriving Repr

/-- An inbound request: its header map (canonical keys) and the outcome of
decoding its body. -/
structure Request (α : Type) where
  Header : List (String × List String)
  Body : Payload α

/-- Go `req.Header[key]`: the values stored under `key`, empty when absent. -/
def headerValues (h : List (String × List String)) (key : String) : List String :=
  match h.find? fun kv => kv.1 = key with
  | some kv => kv.2
  | none => []

/-- Go `Header.Get`: the first value stored under the canonical form of the
key, or the empty string. -/
def headerGet (h : List (String × List String)) (canonicalKey : String) : String :=
  (headerValues h canonicalKey).headD ""

/-- The JSON error payload of the public router. -/
structure errorResponse where
  Status : Nat
  Code : String
  Message : String
  RequestID : String
deriving DecidableEq, Repr

/-- A payload written to the response body, before JSON encoding. -/
inductive ResponseBody where
  | error (e : errorResponse)
  | users (us : List User)
deriving DecidableEq, Repr

/-- The state of an `http.ResponseWriter`: the status once the header is
written, the header map, and the payloads written to the body. -/
structure ResponseWriter where
  status : Option Nat
  header : List (String × String)
  body : List ResponseBody
deriving DecidableEq, Repr

/-- A fresh response writer. -/
def ResponseWriter.new : ResponseWriter := { status := none, header := [], body := [] }

/-- Go `w.WriteHeader(code)`: the first call fixes the status. -/
def ResponseWriter.WriteHeader (w : ResponseWriter) (code : Nat) : ResponseWriter :=
  match w.status with
  | some _ => w
  | none => { w with status := some code }

/-- Go `w.Write(b)`: writes the header with status 200 if none was written. -/
def ResponseWriter.Write (w : ResponseWriter) (b : ResponseBody) : ResponseWriter :=
  let w1 := w.WriteHeader 200
  { w1 with body := w1.body ++ [b] }

/-- Go `w.Header().Set(key, value)`, with `key` in canonical form. -/
def ResponseWriter.SetHeader (w : ResponseWriter) (key value : String) : ResponseWriter :=
  { w with header := (key, value) :: w.header.filter fun kv => kv.1 ≠ key }

/-- The value of a response header, if set. -/
def ResponseWriter.headerOf (w : ResponseWriter) (key : String) : Option String :=
  (w.header.find? fun kv => kv.1 = key).map Prod.snd

/-- The status the client receives: 200 when the handler wrote none. -/
def ResponseWriter.statusCode (w : ResponseWriter) : Nat := w.status.getD 200

/-- The error code of the JSON error payload the client receives, if any. -/
def ResponseWriter.errorCode (w : ResponseWriter) : Option String :=
  match w.body with
  | [ResponseBody.error e] => some e.Code
  | _ => none

/-- The shared value `internalError`. -/
def internalError : errorResponse :=
  { Status := 500, Code := "internal_error",
    Message := "There was an internal error while processing the request", RequestID := "" }

/-- The shared value `unprocessableError`. -/
def unprocessableError : errorResponse :=
  { Status := 422, Code := "unprocessable",
    Message := "Request could not be processed", RequestID := "" }

/-- The function `writeErrorResponse`: copies the request id into the payload,
writes its status and then the payload. -/
def writeErrorResponse {α : Type} (w : ResponseWriter) (req : Request α)
    (res : errorResponse) : ResponseWriter :=
  let res1 := { res with RequestID := headerGet req.Header "X-Request-Id" }
  (w.WriteHeader res1.Status).Write (ResponseBody.error res1)

/-! ## The public router -/

/-- Body of `POST /register`. -/
structure registerRequest where
  Email : String
  Password : String
deriving DecidableEq, Repr

/-- Body of `POST /login`. -/
structure loginRequest where
  Email : String
  Password : String
deriving DecidableEq, Repr

/-- Body of `POST /activate`. -/
structure activateRequest where
  Email : String
  Code : String
deriving DecidableEq, Repr

/-- The error payload of a rejected login. -/
def invalidUserOrPassword : errorResponse :=
  { Status := 400, Code := "invalid_user_or_password",
    Message := "Invalid user or password", RequestID := "" }

/-- The error payload of a rejected activation. -/
def invalidActivationCode : errorResponse :=
  { Status := 400, Code := "invalid_activation_code",
    Message := "The activation code is invalid", RequestID := "" }

/-- Runs a handler body.  In a body an `Except.error r` stands for Go's
`return` with the state `r` reached so far, and the final value is the state
when control reaches the end of the function. -/
def runHandler {ρ : Type} (body : Except ρ ρ) : ρ :=
  match body with
  | Except.error r => r
  | Except.ok r => r

/-- Go's `return` statement in a handler body, leaving with the state `r`. -/
abbrev ret {ρ : Type} (r : ρ) : Except ρ Unit := Except.error r

/-- The condition `email = ?` of the login query. -/
def emailQuery (email : String) (u : User) : Bool :=
  emailColumn u = email

/-- The condition `email = ? AND activation_code = ? AND activated = false AND
activation_code_validity > NOW()` of the activation query, with `now` for the
value of `NOW()`. -/
def activationQuery (email code : String) (now : Time) (u : User) : Bool :=
  emailColumn u = email ∧ u.ActivationCode = code ∧ u.Activated = false
    ∧ u.ActivationCodeValidity > now

/-- The handler of `POST /register`.  `bt` is the outcome of `rand.Read`
on the 8-byte array, `uid` the text of the fresh UUID, `now` the value of
`time.Now()`. -/
def register (bcrypt : Bcrypt) (bt : Bytes 8) (uid : String) (now : Time)
    (req : Request registerRequest) (db : DB) : ResponseWriter × DB := runHandler do
  let w := ResponseWriter.new
  let decoded ← match req.Body with
    | Payload.readError => throw (w.WriteHeader 400, db)
    | Payload.malformed => throw (w.WriteHeader 400, db)
    | Payload.decoded v => pure v
  let mut rq := decoded
  match bcrypt.GenerateFromPassword rq.Password DefaultCost with
  | Except.error _ => ret (w.WriteHeader 500, db)
  | Except.ok val => rq := { rq with Password := val }
  -- Generate an activation code
  let activationCode := EncodeToString bt.val
  -- The composite literal leaves `Activated` at its zero value.
  let m : User :=
    { UID := uid
      Username := rq.Email
      Password := rq.Password
      Activated := false
      ActivationCode := activationCode
      ActivationCodeValidity := now + Hour * 24 }
  let (db1, err) := Insert m db
  if err ≠ none then
    ret (w.WriteHeader 400, db1)
  pure (w.WriteHeader 204, db1)

/-- The handler of `POST /login`.  `SignedString` signs a claim set with a
key (HS256), `bt` is the outcome of `rand.Read` on the 24-byte array, `now` the
instant of the cache write.  A dereference of a nil `user` aborts the handler
with whatever was written so far. -/
def login (bcrypt : Bcrypt) (SignedString : StandardClaims → String → Except String String)
    (bt : Bytes 24) (now : Time) (req : Request loginRequest) (db : DB) (client : Redis) :
    ResponseWriter × DB × Redis := runHandler do
  let w := ResponseWriter.new
  let rq ← match req.Body with
    | Payload.readError => throw (writeErrorResponse w req unprocessableError, db, client)
    | Payload.malformed => throw (writeErrorResponse w req unprocessableError, db, client)
    | Payload.decoded rq => pure rq
  let (db1, user, err) := One db (emailQuery rq.Email)
  if err ≠ none then
    ret (writeErrorResponse w req internalError, db1, client)
  match err with
  | some SqlError.ErrNoRows =>
    ret (writeErrorResponse w req invalidUserOrPassword, db1, client)
  | _ =>
    ret (writeErrorResponse w req internalError, db1, client)
  -- Validate the password
  let user ← match user with
    | none => throw (w, db1, client)
    | some user => pure user
  if (bcrypt.CompareHashAndPassword user.Password rq.Password) ≠ none then
    ret (writeErrorResponse w req invalidUserOrPassword, db1, client)
  -- Issue a JWT token and store it.
  let claims : StandardClaims := { ExpiresAt := 15000, Issuer := "rso-bicycle:users" }
  let jwtToken ← match SignedString claims "signingkey" with
    | Except.error _ => throw (writeErrorResponse w req internalError, db1, client)
    | Except.ok jwtToken => pure jwtToken
  let token := EncodeToString bt.val
  let (client1, err) := client.Set ("token:" ++ token) jwtToken (Hour * 24 * 7) now
  if err ≠ none then
    pure (writeErrorResponse w req internalError, db1, client1)
  else
    pure ((w.SetHeader "Authorization" ("Bearer " ++ token)).WriteHeader 204, db1, client1)

/-- The handler of `POST /activate`.  `now` is the value of `NOW()` in the
query.  A dereference of a nil `user` aborts the handler with whatever was
written so far. -/
def activate (now : Time) (req : Request activateRequest) (db : DB) :
    ResponseWriter × DB := runHandler do
  let w := ResponseWriter.new
  let rq ← match req.Body with
    | Payload.readError => throw (writeErrorResponse w req unprocessableError, db)
    | Payload.malformed => throw (writeErrorResponse w req unprocessableError, db)
    | Payload.decoded rq => pure rq
  let (db1, user, err) := One db (activationQuery rq.Email rq.Code now)
  match err with
  | some SqlError.ErrNoRows =>
    ret (writeErrorResponse w req invalidActivationCode, db1)
  | _ =>
    ret (writeErrorResponse w req internalError, db1)
  -- Exists. Activate the account.
  let user ← match user with
    | none => throw (w, db1)
    | some user => pure { user with Activated := true }
  let (db2, err) := Update user db1
  if err ≠ none then
    ret (writeErrorResponse w req internalError, db2)
  pure (w.WriteHeader 204, db2)

/-- The handler of `GET /`: all users as JSON. -/
def listUsers (req : Request Unit) (db : DB) : ResponseWriter × DB := runHandler do
  let w := ResponseWriter.new
  let (db1, us, err) := All db
  if err ≠ none then
    pure (writeErrorResponse w req internalError, db1)
  else
    pure ((w.SetHeader "Content-Type" "application/json").Write (ResponseBody.users us), db1)

/-! ## The internal router -/

/-- The handler of `GET /authorize/`.  `now` is the instant of the cache
lookup. -/
def authorize (now : Time) (req : Request Unit) (client : Redis) :
    ResponseWriter × Redis := runHandler do
  let w := ResponseWriter.new
  let token := headerValues req.Header "Authorization"
  if token.length = 0 then
    ret (w.WriteHeader 401, client)
  let tk := Split (token.headD "") "Bearer "
  if tk.length ≠ 2 then
    ret (w.WriteHeader 401, client)
  let (client1, res, err) := client.Get ("token:" ++ tk.getD 1 "") now
  if err ≠ none then
    pure (w.WriteHeader 401, client1)
  else
    -- Res is a jwt token
    pure ((w.SetHeader "Authorization" ("Bearer " ++ res)).WriteHeader 200, client1)

/-! ## Sample collaborators for concrete runs -/

/-- A stand-in for bcrypt: the digest is the password behind a fixed tag, and
a digest verifies against exactly the password it was made from. -/
def sampleBcrypt : Bcrypt :=
  { GenerateFromPassword := fun p _ => Except.ok ("$2a$10$" ++ p)
    CompareHashAndPassword := fun h p =>
      if h = "$2a$10$" ++ p then none else some "hashedPassword is not the hash of the given password" }

/-- A stand-in for HS256 signing: the issuer, tagged with the key. -/
def sampleSignedString (c : StandardClaims) (key : String) : Except String String :=
  Except.ok ("jwt." ++ c.Issuer ++ "." ++ key)

/-- A working store without rows. -/
def emptyDB : DB := { rows := [], log := [], queryFault := none, execFault := none }

/-- A working cache without entries. -/
def emptyRedis : Redis := { entries := [], log := [], getFault := none, setFault := none }

/-- Eight zero octets. -/
def zeros8 : Bytes 8 := ⟨List.replicate 8 0, rfl⟩

/-- Twenty-four zero octets. -/
def zeros24 : Bytes 24 := ⟨List.replicate 24 0, rfl⟩

/-- A stored user with the email `a@b.c` and the digest of the password `pw`. -/
def sampleUser : User :=
  { UID := "u-1", Username := "a@b.c", Password := "$2a$10$pw", Activated := false,
    ActivationCode := "c0de", ActivationCodeValidity := 100 }

/-- A working store that holds `sampleUser`. -/
def sampleDB : DB := { rows := [sampleUser], log := [], queryFault := none, execFault := none }

/-- A store whose only user is already activated. -/
def activatedDB : DB :=
  { rows := [{ sampleUser with Activated := true }], log := [], queryFault := none,
    execFault := none }

/-- The record that the register handler builds for the store. -/
def registeredUser (uid email digest : String) (bt : Bytes 8) (now : Time) : User :=
  { UID := uid
    Username := email
    Password := digest
    Activated := false
    ActivationCode := EncodeToString bt.val
    ActivationCodeValidity := now + Hour * 24 }

/-- A store without rows whose writes fail with a driver error. -/
def brokenDB : DB :=
  { rows := [], log := [], queryFault := none, execFault := some "connection refused" }

/-- Eight octets with distinct digits. -/
def sampleOctets : Bytes 8 := ⟨[0, 1, 35, 69, 103, 137, 171, 255], rfl⟩

/-- A working cache that holds a session under the token `t`, readable before
the instant 10. -/
def sampleRedis : Redis :=
  { entries := [("token:t", "jwt", 10)], log := [], getFault := none, setFault := none }

/-! ## Facts about the store, the cache and the response writer -/

theorem One_cases (db : DB) (f : User → Bool) :
    (∃ msg, db.queryFault = some msg ∧ Users.One db f =
      ({ db with log := db.log ++ [Stmt.select] }, none, some (SqlError.Driver msg))) ∨
    (∃ u, db.queryFault = none ∧ db.rows.find? f = some u ∧ Users.One db f =
      ({ db with log := db.log ++ [Stmt.select] }, some u, none)) ∨
    (db.queryFault = none ∧ db.rows.find? f = none ∧ Users.One db f =
      ({ db with log := db.log ++ [Stmt.select] }, none, some SqlError.ErrNoRows)) := by
  unfold Users.One
  cases hq : db.queryFault with
  | some m => simp
  | none =>
    cases hf : db.rows.find? f with
    | none => simp
    | some u => simp

/-- After a body that decodes, the login handler answers with the internal
error whatever the store and the cache hold: a failed query leaves through the
`err != nil` guard, and a query without error falls into the `default` branch
of the `switch`.  The cache is not touched. -/
theorem login_decoded (bcrypt : Bcrypt)
    (SignedString : StandardClaims → String → Except String String) (bt : Bytes 24)
    (now : Time) (h : List (String × List String)) (rq : loginRequest) (db : DB)
    (client : Redis) :
    login bcrypt SignedString bt now { Header := h, Body := Payload.decoded rq } db client =
      (writeErrorResponse ResponseWriter.new
          ({ Header := h, Body := Payload.decoded rq } : Request loginRequest) internalError,
        { db with log := db.log ++ [Stmt.select] }, client) := by
  rcases One_cases db (emailQuery rq.Email) with
    ⟨m, _, e⟩ | ⟨u, _, _, e⟩ | ⟨_, _, e⟩ <;>
  simp [login, runHandler, e, bind, Except.bind, pure, Except.pure]

theorem writeErrorResponse_statusCode {α : Type} (req : Request α) (res : errorResponse) :
    (writeErrorResponse ResponseWriter.new req res).statusCode = res.Status := by
  simp [writeErrorResponse, ResponseWriter.new, ResponseWriter.WriteHeader,
    ResponseWriter.Write, ResponseWriter.statusCode]

theorem writeErrorResponse_errorCode {α : Type} (req : Request α) (res : errorResponse) :
    (writeErrorResponse ResponseWriter.new req res).errorCode = some res.Code := by
  simp [writeErrorResponse, ResponseWriter.new, ResponseWriter.WriteHeader,
    ResponseWriter.Write, ResponseWriter.errorCode]

theorem writeErrorResponse_headerOf {α : Type} (req : Request α) (res : errorResponse)
    (key : String) :
    (writeErrorResponse ResponseWriter.new req res).headerOf key = none := by
  simp [writeErrorResponse, ResponseWriter.new, ResponseWriter.WriteHeader,
    ResponseWriter.Write, ResponseWriter.headerOf]

/-- C1 (as found in the code): with a store that holds a record for the email
of the request whose digest verifies against the password of the request, and
a cache whose writes succeed, the login handler answers 500 `internal_error`
instead of 204, sets no `Authorization` header and writes nothing to the
cache, so no token is issued that `/authorize/` could accept. -/
theorem login_correct_credentials_internal_error (bcrypt : Bcrypt)
    (SignedString : StandardClaims → String → Except String String) (bt : Bytes 24)
    (now : Time) (h : List (String × List String)) (rq : loginRequest) (db : DB)
    (client : Redis) (u : User)
    (_hq : db.queryFault = none)
    (_hu : db.rows.find? (emailQuery rq.Email) = some u)
    (_hpw : bcrypt.CompareHashAndPassword u.Password rq.Password = none)
    (_hset : client.setFault = none) :
    (login bcrypt SignedString bt now
        { Header := h, Body := Payload.decoded rq } db client).1.statusCode = 500 ∧
    (login bcrypt SignedString bt now
        { Header := h, Body := Payload.decoded rq } db client).1.errorCode
      = some "internal_error" ∧
    (login bcrypt SignedString bt now
        { Header := h, Body := Payload.decoded rq } db client).1.headerOf "Authorization"
      = none ∧
    (login bcrypt SignedString bt now
        { Header := h, Body := Payload.decoded rq } db client).2.2 = client := by
  rw [login_decoded]
  refine ⟨?_, ?_, ?_, rfl⟩
  · rw [writeErrorResponse_statusCode]; rfl
  · rw [writeErrorResponse_errorCode]; rfl
  · rw [writeErrorResponse_headerOf]

theorem login_correct_credentials_internal_error_witness :
    sampleDB.rows.find? (emailQuery "a@b.c") = some sampleUser ∧
    sampleBcrypt.CompareHashAndPassword sampleUser.Password "pw" = none ∧
    (login sampleBcrypt sampleSignedString zeros24 0
        { Header := [], Body := Payload.decoded { Email := "a@b.c", Password := "pw" } }
        sampleDB emptyRedis).1.statusCode = 500 ∧
    (login sampleBcrypt sampleSignedString zeros24 0
        { Header := [], Body := Payload.decoded { Email := "a@b.c", Password := "pw" } }
        sampleDB emptyRedis).2.2 = emptyRedis :=
  have hu : sampleDB.rows.find? (emailQuery "a@b.c") = some sampleUser := by
    decide
  have hp : sampleBcrypt.CompareHashAndPassword sampleUser.Password "pw" = none := by decide
  have t := login_correct_credentials_internal_error sampleBcrypt sampleSignedString zeros24 0
    [] { Email := "a@b.c", Password := "pw" } sampleDB emptyRedis sampleUser rfl hu hp rfl
  ⟨hu, hp, t.1, t.2.2.2⟩

/-- C2 (as found in the code): for every login body that decodes, when the
store has no user with the email of the request, or has one whose digest does
not verify against the password of the request, the login handler answers 500
`internal_error` in both cases alike, not 400 `invalid_user_or_password`; it
writes nothing to the cache and sets no `Authorization` header. -/
theorem login_bad_credentials_internal_error (bcrypt : Bcrypt)
    (SignedString : StandardClaims → String → Except String String) (bt : Bytes 24)
    (now : Time) (h : List (String × List String)) (rq : loginRequest) (db : DB)
    (client : Redis)
    (_hq : db.queryFault = none)
    (_hbad : db.rows.find? (emailQuery rq.Email) = none ∨
      ∃ u, db.rows.find? (emailQuery rq.Email) = some u ∧
        bcrypt.CompareHashAndPassword u.Password rq.Password ≠ none) :
    (login bcrypt SignedString bt now
        { Header := h, Body := Payload.decoded rq } db client).1 =
      writeErrorResponse ResponseWriter.new
        ({ Header := h, Body := Payload.decoded rq } : Request loginRequest) internalError ∧
    (login bcrypt SignedString bt now
        { Header := h, Body := Payload.decoded rq } db client).1.statusCode = 500 ∧
    (login bcrypt SignedString bt now
        { Header := h, Body := Payload.decoded rq } db client).1.errorCode
      = some "internal_error" ∧
    (login bcrypt SignedString bt now
        { Header := h, Body := Payload.decoded rq } db client).1.headerOf "Authorization"
      = none ∧
    (login bcrypt SignedString bt now
        { Header := h, Body := Payload.decoded rq } db client).2.2 = client := by
  rw [login_decoded]
  refine ⟨rfl, ?_, ?_, ?_, rfl⟩
  · rw [writeErrorResponse_statusCode]; rfl
  · rw [writeErrorResponse_errorCode]; rfl
  · rw [writeErrorResponse_headerOf]

theorem login_bad_credentials_internal_error_witness :
    (login sampleBcrypt sampleSignedString zeros24 0
        { Header := [], Body := Payload.decoded { Email := "a@b.c", Password := "wrong" } }
        sampleDB emptyRedis).1.statusCode = 500 ∧
    (login sampleBcrypt sampleSignedString zeros24 0
        { Header := [], Body := Payload.decoded { Email := "a@b.c", Password := "wrong" } }
        sampleDB emptyRedis).1.errorCode = some "internal_error" :=
  have t := login_bad_credentials_internal_error sampleBcrypt sampleSignedString zeros24 0
    [] { Email := "a@b.c", Password := "wrong" } sampleDB emptyRedis rfl
    (Or.inr ⟨sampleUser, by decide, by decide⟩)
  ⟨t.2.1, t.2.2.1⟩

/-- After a body that decodes, the activation handler answers 400
`invalid_activation_code` exactly when the query reports no row, and the
internal error in every other case, the case of a found user included (the
`default` branch of the `switch`).  The store receives the query and nothing
else. -/
theorem activate_decoded (now : Time) (h : List (String × List String))
    (rq : activateRequest) (db : DB) :
    activate now { Header := h, Body := Payload.decoded rq } db =
      (writeErrorResponse ResponseWriter.new
          ({ Header := h, Body := Payload.decoded rq } : Request activateRequest)
          (if db.queryFault = none ∧ db.rows.find? (activationQuery rq.Email rq.Code now) = none
            then invalidActivationCode else internalError),
        { db with log := db.log ++ [Stmt.select] }) := by
  rcases One_cases db (activationQuery rq.Email rq.Code now) with
    ⟨m, hq, e⟩ | ⟨u, hq, hf, e⟩ | ⟨hq, hf, e⟩
  · simp [activate, runHandler, e, hq, bind, Except.bind, pure, Except.pure]
  · simp [activate, runHandler, e, hq, hf, bind, Except.bind, pure, Except.pure]
  · simp [activate, runHandler, e, hq, hf, bind, Except.bind, pure, Except.pure]

/-- C3 (as found in the code): when the combined query finds a user and the
store accepts updates, the activation handler still answers 500
`internal_error`, sends no update, and leaves the table as it was, so the found
user stays unactivated; a second call on the resulting store answers 500 again
rather than 400 `invalid_activation_code`. -/
theorem activate_found_internal_error (now : Time) (h : List (String × List String))
    (rq : activateRequest) (db : DB) (u : User)
    (hq : db.queryFault = none)
    (hu : db.rows.find? (activationQuery rq.Email rq.Code now) = some u)
    (_hexec : db.execFault = none) :
    (activate now { Header := h, Body := Payload.decoded rq } db).1.statusCode = 500 ∧
    (activate now { Header := h, Body := Payload.decoded rq } db).1.errorCode
      = some "internal_error" ∧
    (activate now { Header := h, Body := Payload.decoded rq } db).2.rows = db.rows ∧
    (activate now { Header := h, Body := Payload.decoded rq } db).2.log
      = db.log ++ [Stmt.select] ∧
    (u ∈ (activate now { Header := h, Body := Payload.decoded rq } db).2.rows ∧
      u.Activated = false) ∧
    (activate now { Header := h, Body := Payload.decoded rq }
      (activate now { Header := h, Body := Payload.decoded rq } db).2).1.statusCode = 500 := by
  have hmem := List.mem_of_find?_eq_some hu
  have hp := List.find?_some hu
  simp only [activationQuery, decide_eq_true_eq] at hp
  rw [activate_decoded, activate_decoded]
  simp only [hq, hu, writeErrorResponse_statusCode, writeErrorResponse_errorCode]
  simp [internalError, hmem, hp.2.2.1]

theorem activate_found_internal_error_witness :
    (activate 50 { Header := [], Body := Payload.decoded { Email := "a@b.c", Code := "c0de" } }
      sampleDB).1.statusCode = 500 ∧
    (activate 50 { Header := [], Body := Payload.decoded { Email := "a@b.c", Code := "c0de" } }
      sampleDB).2.rows = [sampleUser] ∧
    sampleUser.Activated = false :=
  have t := activate_found_internal_error 50 [] { Email := "a@b.c", Code := "c0de" } sampleDB
    sampleUser rfl (by decide) rfl
  ⟨t.1, t.2.2.1, t.2.2.2.2.1.2⟩

/-- C4: for every activation body that decodes, when the store answers and no
row satisfies the combined condition (email, code, not activated, expiry in
the future), the activation handler answers with the one error 400
`invalid_activation_code`, sends the store nothing but the query, and leaves
every row unchanged. -/
theorem activate_no_row (now : Time) (h : List (String × List String))
    (rq : activateRequest) (db : DB)
    (hq : db.queryFault = none)
    (hno : ∀ u ∈ db.rows, ¬ (emailColumn u = rq.Email ∧ u.ActivationCode = rq.Code ∧
      u.Activated = false ∧ now < u.ActivationCodeValidity)) :
    (activate now { Header := h, Body := Payload.decoded rq } db).1 =
      writeErrorResponse ResponseWriter.new
        ({ Header := h, Body := Payload.decoded rq } : Request activateRequest)
        invalidActivationCode ∧
    (activate now { Header := h, Body := Payload.decoded rq } db).1.statusCode = 400 ∧
    (activate now { Header := h, Body := Payload.decoded rq } db).1.errorCode
      = some "invalid_activation_code" ∧
    (activate now { Header := h, Body := Payload.decoded rq } db).2.rows = db.rows ∧
    (activate now { Header := h, Body := Payload.decoded rq } db).2.log
      = db.log ++ [Stmt.select] := by
  have hf : db.rows.find? (activationQuery rq.Email rq.Code now) = none := by
    rw [List.find?_eq_none]
    intro u hu
    simpa [activationQuery] using hno u hu
  rw [activate_decoded]
  simp only [hq, hf, writeErrorResponse_statusCode, writeErrorResponse_errorCode]
  simp [invalidActivationCode]

theorem activate_no_row_witness :
    (activate 50 { Header := [], Body := Payload.decoded { Email := "a@b.c", Code := "c0de" } }
      activatedDB).1.statusCode = 400 ∧
    (activate 50 { Header := [], Body := Payload.decoded { Email := "a@b.c", Code := "bad" } }
      sampleDB).1.statusCode = 400 ∧
    (activate 100 { Header := [], Body := Payload.decoded { Email := "a@b.c", Code := "c0de" } }
      sampleDB).1.statusCode = 400 ∧
    (activate 100 { Header := [], Body := Payload.decoded { Email := "a@b.c", Code := "c0de" } }
      sampleDB).2.rows = sampleDB.rows :=
  have t1 := activate_no_row 50 [] { Email := "a@b.c", Code := "c0de" } activatedDB rfl
    (by decide)
  have t2 := activate_no_row 50 [] { Email := "a@b.c", Code := "bad" } sampleDB rfl
    (by decide)
  have t3 := activate_no_row 100 [] { Email := "a@b.c", Code := "c0de" } sampleDB rfl
    (by decide)
  ⟨t1.2.1, t2.2.1, t3.2.1, t3.2.2.2.1⟩

theorem Insert_fault (m : User) (db : DB) (msg : String) (hf : db.execFault = some msg) :
    Insert m db = ({ db with log := db.log ++ [Stmt.insert m.UID] },
      some (SqlError.Driver msg)) := by
  simp [Insert, hf]

theorem Insert_conflict (m : User) (db : DB) (hf : db.execFault = none) (u : User)
    (hu : u ∈ db.rows) (he : emailColumn u = emailColumn m) :
    Insert m db = ({ db with log := db.log ++ [Stmt.insert m.UID] },
      some SqlError.UniqueViolation) := by
  have : ∃ x ∈ db.rows, emailColumn x = emailColumn m := ⟨u, hu, he⟩
  simp [Insert, hf, this]

theorem Insert_fresh (m : User) (db : DB) (hf : db.execFault = none)
    (hfresh : ∀ u ∈ db.rows, emailColumn u ≠ emailColumn m) :
    Insert m db = ({ db with log := db.log ++ [Stmt.insert m.UID], rows := db.rows ++ [m] },
      none) := by
  have : ¬ ∃ x ∈ db.rows, emailColumn x = emailColumn m := by
    rintro ⟨x, hx, he⟩
    exact hfresh x hx he
  simp [Insert, hf, this]

/-- After a body that decodes and a password that hashes, the register handler
hands the store one record, built from the request, the digest, the random
octets and the clock; it answers 204 when the insert reports no error and 400
when it reports any error. -/
theorem register_hashed (bcrypt : Bcrypt) (bt : Bytes 8) (uid : String) (now : Time)
    (h : List (String × List String)) (rq : registerRequest) (db : DB) (digest : String)
    (hh : bcrypt.GenerateFromPassword rq.Password DefaultCost = Except.ok digest) :
    register bcrypt bt uid now { Header := h, Body := Payload.decoded rq } db =
      (ResponseWriter.new.WriteHeader
          (if (Insert (registeredUser uid rq.Email digest bt now) db).2 = none then 204 else 400),
        (Insert (registeredUser uid rq.Email digest bt now) db).1) := by
  simp only [register, runHandler, hh, bind, Except.bind, pure, Except.pure, registeredUser]
  split_ifs with hc hc2 <;> simp_all

theorem WriteHeader_new_statusCode (code : Nat) :
    (ResponseWriter.new.WriteHeader code).statusCode = code := by
  simp [ResponseWriter.new, ResponseWriter.WriteHeader, ResponseWriter.statusCode]

/-- C5 (as found in the code): a register request whose email or password is
empty is not rejected.  When the password hashes, the store accepts writes and
no row has the email of the request, the handler answers 204 and the store
gains a record for the request. -/
theorem register_empty_credentials_accepted (bcrypt : Bcrypt) (bt : Bytes 8) (uid : String)
    (now : Time) (h : List (String × List String)) (rq : registerRequest) (db : DB)
    (digest : String)
    (_hempty : rq.Email = "" ∨ rq.Password = "")
    (hh : bcrypt.GenerateFromPassword rq.Password DefaultCost = Except.ok digest)
    (hexec : db.execFault = none)
    (hfresh : ∀ u ∈ db.rows, emailColumn u ≠ rq.Email) :
    (register bcrypt bt uid now { Header := h, Body := Payload.decoded rq } db).1.statusCode
      = 204 ∧
    (register bcrypt bt uid now { Header := h, Body := Payload.decoded rq } db).2.rows
      = db.rows ++ [(registeredUser uid rq.Email digest bt now)] := by
  rw [register_hashed bcrypt bt uid now h rq db digest hh,
    Insert_fresh (registeredUser uid rq.Email digest bt now) db hexec hfresh]
  simp [WriteHeader_new_statusCode]

theorem register_empty_credentials_accepted_witness :
    (register sampleBcrypt zeros8 "u-2" 0
      { Header := [], Body := Payload.decoded { Email := "", Password := "" } }
      emptyDB).1.statusCode = 204 ∧
    (register sampleBcrypt zeros8 "u-2" 0
      { Header := [], Body := Payload.decoded { Email := "", Password := "" } }
      emptyDB).2.rows =
      [registeredUser "u-2" "" "$2a$10$" zeros8 0] :=
  register_empty_credentials_accepted sampleBcrypt zeros8 "u-2" 0 []
    { Email := "", Password := "" } emptyDB "$2a$10$" (Or.inl rfl) rfl rfl
    (by intro u hu; cases hu)

/-- C6 (as found in the code): for every register body that decodes and whose
password hashes, a store failure other than a conflict (a driver error on the
insert) is answered with 400, the same status as a duplicate email, not with a
500-class status; nothing is stored. -/
theorem register_insert_failure_bad_request (bcrypt : Bcrypt) (bt : Bytes 8) (uid : String)
    (now : Time) (h : List (String × List String)) (rq : registerRequest) (db : DB)
    (digest msg : String)
    (hh : bcrypt.GenerateFromPassword rq.Password DefaultCost = Except.ok digest)
    (hfail : db.execFault = some msg) :
    (register bcrypt bt uid now { Header := h, Body := Payload.decoded rq } db).1.statusCode
      = 400 ∧
    (register bcrypt bt uid now { Header := h, Body := Payload.decoded rq } db).1.body = [] ∧
    (register bcrypt bt uid now { Header := h, Body := Payload.decoded rq } db).2.rows
      = db.rows := by
  rw [register_hashed bcrypt bt uid now h rq db digest hh, Insert_fault _ db msg hfail]
  simp [ResponseWriter.new, ResponseWriter.WriteHeader, ResponseWriter.statusCode]

theorem register_insert_failure_bad_request_witness :
    (register sampleBcrypt zeros8 "u-2" 0
      { Header := [], Body := Payload.decoded { Email := "a@b.c", Password := "pw" } }
      brokenDB).1.statusCode = 400 :=
  (register_insert_failure_bad_request sampleBcrypt zeros8 "u-2" 0 []
    { Email := "a@b.c", Password := "pw" } brokenDB "$2a$10$pw" "connection refused"
    rfl rfl).1

/-- A duplicate email is answered with 400 as well. -/
theorem register_conflict_bad_request (bcrypt : Bcrypt) (bt : Bytes 8) (uid : String)
    (now : Time) (h : List (String × List String)) (rq : registerRequest) (db : DB)
    (digest : String) (u : User)
    (hh : bcrypt.GenerateFromPassword rq.Password DefaultCost = Except.ok digest)
    (hexec : db.execFault = none) (hu : u ∈ db.rows) (he : emailColumn u = rq.Email) :
    (register bcrypt bt uid now { Header := h, Body := Payload.decoded rq } db).1.statusCode
      = 400 ∧
    (register bcrypt bt uid now { Header := h, Body := Payload.decoded rq } db).2.rows
      = db.rows := by
  rw [register_hashed bcrypt bt uid now h rq db digest hh,
    Insert_conflict (registeredUser uid rq.Email digest bt now) db hexec u hu he]
  simp [WriteHeader_new_statusCode]

theorem hextable_getD_mem (i : Nat) (hi : i < 16) : hextable.getD i '0' ∈ hextable := by
  have hl : hextable.length = 16 := rfl
  rw [List.getD_eq_getElem hextable '0' (by omega)]
  exact List.getElem_mem _

theorem EncodeToString_length (src : List Byte) :
    (EncodeToString src).length = 2 * src.length := by
  unfold EncodeToString
  rw [String.length_mk]
  induction src with
  | nil => rfl
  | cons v vs ih =>
    rw [List.flatMap_cons, List.length_append, ih]
    simp only [List.length_cons, List.length_nil]
    omega

theorem EncodeToString_hex (src : List Byte) :
    ∀ c ∈ (EncodeToString src).data, c ∈ hextable := by
  intro c hc
  simp only [EncodeToString, List.mem_flatMap] at hc
  obtain ⟨v, _, hv⟩ := hc
  have h1 : v.val >>> 4 < 16 := by
    rw [Nat.shiftRight_eq_div_pow]
    have := v.isLt
    omega
  have h2 : v.val &&& 0x0f < 16 := Nat.and_lt_two_pow v.val (by norm_num : 15 < 2 ^ 4)
  simp only [List.mem_cons, List.mem_singleton, List.not_mem_nil, or_false] at hv
  rcases hv with rfl | rfl
  · exact hextable_getD_mem _ h1
  · exact hextable_getD_mem _ h2

theorem listUsers_working {req : Request Unit} (db : DB) (hq : db.queryFault = none) :
    (listUsers req db).1.statusCode = 200 ∧
    (listUsers req db).1.body = [ResponseBody.users db.rows] := by
  simp [listUsers, runHandler, All, hq, pure, Except.pure, ResponseWriter.new,
    ResponseWriter.SetHeader, ResponseWriter.Write, ResponseWriter.WriteHeader,
    ResponseWriter.statusCode]

/-- C9: for every store that answers, register with an email that no row has
yet and a password that hashes answers 204, and listing the users afterwards
shows the rows listed before plus exactly one new record; that record carries
the email of the request, is not activated, and holds the digest made by the
hasher in place of the password of the request. -/
theorem register_then_list (bcrypt : Bcrypt) (bt : Bytes 8) (uid : String) (now : Time)
    (h : List (String × List String)) (rq : registerRequest) (db : DB) (digest : String)
    (req2 : Request Unit)
    (hh : bcrypt.GenerateFromPassword rq.Password DefaultCost = Except.ok digest)
    (hq : db.queryFault = none) (hexec : db.execFault = none)
    (hfresh : ∀ u ∈ db.rows, emailColumn u ≠ rq.Email) :
    (register bcrypt bt uid now { Header := h, Body := Payload.decoded rq } db).1.statusCode
      = 204 ∧
    (listUsers req2 db).1.body = [ResponseBody.users db.rows] ∧
    ∃ m : User,
      (listUsers req2
        (register bcrypt bt uid now { Header := h, Body := Payload.decoded rq } db).2).1.body
        = [ResponseBody.users (db.rows ++ [m])] ∧
      (listUsers req2
        (register bcrypt bt uid now { Header := h, Body := Payload.decoded rq } db).2
        ).1.statusCode = 200 ∧
      emailColumn m = rq.Email ∧ m.Username = rq.Email ∧ m.Activated = false ∧
      bcrypt.GenerateFromPassword rq.Password DefaultCost = Except.ok m.Password := by
  rw [register_hashed bcrypt bt uid now h rq db digest hh,
    Insert_fresh (registeredUser uid rq.Email digest bt now) db hexec hfresh]
  have key := @listUsers_working req2
    { db with
      log := db.log ++ [Stmt.insert uid]
      rows := db.rows ++ [registeredUser uid rq.Email digest bt now] } hq
  exact ⟨by simp [WriteHeader_new_statusCode], (listUsers_working db hq).2,
    registeredUser uid rq.Email digest bt now, key.2, key.1, rfl, rfl, rfl, hh⟩

theorem register_then_list_witness :
    (register sampleBcrypt zeros8 "u-2" 0
      { Header := [], Body := Payload.decoded { Email := "d@e.f", Password := "s3cret" } }
      sampleDB).1.statusCode = 204 ∧
    (listUsers { Header := [], Body := Payload.decoded () }
      (register sampleBcrypt zeros8 "u-2" 0
        { Header := [], Body := Payload.decoded { Email := "d@e.f", Password := "s3cret" } }
        sampleDB).2).1.body =
      [ResponseBody.users [sampleUser, registeredUser "u-2" "d@e.f" "$2a$10$s3cret" zeros8 0]] :=
  have t := register_then_list sampleBcrypt zeros8 "u-2" 0 []
    { Email := "d@e.f", Password := "s3cret" } sampleDB "$2a$10$s3cret"
    { Header := [], Body := Payload.decoded () } rfl rfl rfl (by decide)
  ⟨t.1, by decide⟩

/-- C10: for every 8 random octets and every instant `now`, when the register
handler stores a record (the password hashes, the store accepts writes and no
row has the email yet), the stored activation code is the hexadecimal encoding
of the octets, 16 characters long, each one of `0-9a-f`, and the stored expiry
is `now` plus 24 hours. -/
theorem register_activation_code (bcrypt : Bcrypt) (bt : Bytes 8) (uid : String)
    (now : Time) (h : List (String × List String)) (rq : registerRequest) (db : DB)
    (digest : String)
    (hh : bcrypt.GenerateFromPassword rq.Password DefaultCost = Except.ok digest)
    (hexec : db.execFault = none)
    (hfresh : ∀ u ∈ db.rows, emailColumn u ≠ rq.Email) :
    ∃ m : User,
      (register bcrypt bt uid now { Header := h, Body := Payload.decoded rq } db).2.rows
        = db.rows ++ [m] ∧
      m.ActivationCode = EncodeToString bt.val ∧
      m.ActivationCode.length = 16 ∧
      (∀ c ∈ m.ActivationCode.data, c ∈ "0123456789abcdef".data) ∧
      m.ActivationCodeValidity = now + 24 * Hour ∧
      m.ActivationCodeValidity = now + 86400000000000 := by
  rw [register_hashed bcrypt bt uid now h rq db digest hh,
    Insert_fresh (registeredUser uid rq.Email digest bt now) db hexec hfresh]
  refine ⟨registeredUser uid rq.Email digest bt now, rfl, rfl, ?_, ?_, ?_, ?_⟩
  · show (EncodeToString bt.val).length = 16
    rw [EncodeToString_length, bt.property]
  · exact EncodeToString_hex bt.val
  · show now + Hour * 24 = now + 24 * Hour
    rw [mul_comm]
  · show now + Hour * 24 = now + 86400000000000
    rfl

theorem register_activation_code_witness :
    ∃ m : User,
      (register sampleBcrypt sampleOctets "u-2" 1000
        { Header := [], Body := Payload.decoded { Email := "d@e.f", Password := "s3cret" } }
        sampleDB).2.rows = sampleDB.rows ++ [m] ∧
      m.ActivationCode = "000123456789abff" ∧
      m.ActivationCodeValidity = 86400000001000 :=
  have ⟨m, t⟩ := register_activation_code sampleBcrypt sampleOctets "u-2" 1000 []
    { Email := "d@e.f", Password := "s3cret" } sampleDB "$2a$10$s3cret" rfl rfl (by decide)
  ⟨m, t.1, by rw [t.2.1]; decide, by rw [t.2.2.2.2.2]; rfl⟩

theorem Get_cases (client : Redis) (key : String) (now : Time) :
    (∃ msg, client.getFault = some msg ∧ client.Get key now =
      ({ client with log := client.log ++ [Cmd.get key] }, "", some (RedisError.Conn msg))) ∨
    (∃ e, client.getFault = none ∧
      client.entries.find? (fun e => e.1 = key ∧ now < e.2.2) = some e ∧
      client.Get key now = ({ client with log := client.log ++ [Cmd.get key] }, e.2.1, none)) ∨
    (client.getFault = none ∧
      client.entries.find? (fun e => e.1 = key ∧ now < e.2.2) = none ∧
      client.Get key now =
        ({ client with log := client.log ++ [Cmd.get key] }, "", some RedisError.Nil)) := by
  unfold Redis.Get
  cases hq : client.getFault with
  | some m => simp
  | none =>
    cases hf : client.entries.find? (fun e => e.1 = key ∧ now < e.2.2) with
    | none => simp
    | some u => simp

theorem Get_log (client : Redis) (key : String) (now : Time) :
    (client.Get key now).1.log = client.log ++ [Cmd.get key] := by
  rcases Get_cases client key now with ⟨m, _, e⟩ | ⟨u, _, _, e⟩ | ⟨_, _, e⟩ <;> rw [e]

/-- Without an `Authorization` header the authorize handler answers 401 and
sends the cache nothing. -/
theorem authorize_absent (now : Time) (req : Request Unit) (client : Redis)
    (hv : headerValues req.Header "Authorization" = []) :
    authorize now req client = (ResponseWriter.new.WriteHeader 401, client) := by
  simp [authorize, runHandler, hv, bind, Except.bind, pure, Except.pure]

/-- When splitting the first header value at `Bearer ` does not give exactly
two pieces, the authorize handler answers 401 and sends the cache nothing. -/
theorem authorize_unsplit (now : Time) (req : Request Unit) (client : Redis) (v : String)
    (rest : List String) (hv : headerValues req.Header "Authorization" = v :: rest)
    (hs : (Split v "Bearer ").length ≠ 2) :
    authorize now req client = (ResponseWriter.new.WriteHeader 401, client) := by
  simp [authorize, runHandler, hv, hs, bind, Except.bind, pure, Except.pure]

/-- When splitting the first header value at `Bearer ` gives two pieces, the
authorize handler looks the second piece up and answers by the outcome. -/
theorem authorize_split (now : Time) (req : Request Unit) (client : Redis) (v a T : String)
    (rest : List String) (hv : headerValues req.Header "Authorization" = v :: rest)
    (hs : Split v "Bearer " = [a, T]) :
    authorize now req client =
      (if (client.Get ("token:" ++ T) now).2.2 = none then
          (ResponseWriter.new.SetHeader "Authorization"
            ("Bearer " ++ (client.Get ("token:" ++ T) now).2.1)).WriteHeader 200
        else ResponseWriter.new.WriteHeader 401,
        (client.Get ("token:" ++ T) now).1) := by
  simp only [authorize, runHandler, hv, hs, bind, Except.bind, pure, Except.pure]
  split_ifs <;> simp_all

theorem WriteHeader_new_headerOf (code : Nat) (key : String) :
    (ResponseWriter.new.WriteHeader code).headerOf key = none := by
  simp [ResponseWriter.new, ResponseWriter.WriteHeader, ResponseWriter.headerOf]

theorem SetHeader_new_WriteHeader (key value : String) (code : Nat) :
    ((ResponseWriter.new.SetHeader key value).WriteHeader code).statusCode = code ∧
    ((ResponseWriter.new.SetHeader key value).WriteHeader code).headerOf key = some value := by
  simp [ResponseWriter.new, ResponseWriter.SetHeader, ResponseWriter.WriteHeader,
    ResponseWriter.statusCode, ResponseWriter.headerOf]

/-- C7 (as found in the code): the header value `xBearer t` is not of the form
`Bearer ` followed by a token, yet the authorize handler does not answer 401
at once: with every cache it sends the lookup of `token:t`, and with a cache
that holds that key it answers 200 with the stored assertion. -/
theorem authorize_accepts_text_before_bearer :
    (∀ (now : Time) (client : Redis),
      (authorize now { Header := [("Authorization", ["xBearer t"])], Body := Payload.decoded () }
        client).2.log = client.log ++ [Cmd.get "token:t"]) ∧
    (authorize 0 { Header := [("Authorization", ["xBearer t"])], Body := Payload.decoded () }
      sampleRedis).1.statusCode = 200 ∧
    (authorize 0 { Header := [("Authorization", ["xBearer t"])], Body := Payload.decoded () }
      sampleRedis).1.headerOf "Authorization" = some "Bearer jwt" := by
  refine ⟨?_, by decide, by decide⟩
  intro now client
  have hv : headerValues
      ({ Header := [("Authorization", ["xBearer t"])], Body := Payload.decoded () } :
        Request Unit).Header "Authorization" = ["xBearer t"] := by decide
  have hs : Split "xBearer t" "Bearer " = ["x", "t"] := by decide
  rw [authorize_split now _ client "xBearer t" "x" "t" [] hv hs]
  exact Get_log client ("token:" ++ "t") now

/-- C8: for every request and every cache the authorize handler answers 200
or 401.  When the header splits into a token `T`: if the lookup of
`token:` followed by `T` fails (the cache reports an error, or holds no entry
for the key that is readable at `now`, be it never written or past its
deadline) the answer is 401 without `Authorization` header; if the lookup hits
a value, the answer is 200 with the header `Bearer ` followed by the value. -/
theorem authorize_status (now : Time) (req : Request Unit) (client : Redis) :
    ((authorize now req client).1.statusCode = 200 ∨
      (authorize now req client).1.statusCode = 401) ∧
    (∀ (v a T : String) (rest : List String),
      headerValues req.Header "Authorization" = v :: rest →
      Split v "Bearer " = [a, T] →
      ((client.getFault ≠ none ∨
          ∀ e ∈ client.entries, e.1 = "token:" ++ T → ¬ now < e.2.2) →
        (authorize now req client).1.statusCode = 401 ∧
        (authorize now req client).1.headerOf "Authorization" = none) ∧
      (∀ e, client.getFault = none →
        client.entries.find? (fun e => e.1 = "token:" ++ T ∧ now < e.2.2) = some e →
        (authorize now req client).1.statusCode = 200 ∧
        (authorize now req client).1.headerOf "Authorization" = some ("Bearer " ++ e.2.1))) := by
  constructor
  · cases hv : headerValues req.Header "Authorization" with
    | nil =>
      rw [authorize_absent now req client hv]
      exact Or.inr (WriteHeader_new_statusCode 401)
    | cons v rest =>
      by_cases hs : (Split v "Bearer ").length = 2
      · obtain ⟨a, T, hs2⟩ := List.length_eq_two.mp hs
        rw [authorize_split now req client v a T rest hv hs2]
        split_ifs
        · exact Or.inl (SetHeader_new_WriteHeader _ _ 200).1
        · exact Or.inr (WriteHeader_new_statusCode 401)
      · rw [authorize_unsplit now req client v rest hv hs]
        exact Or.inr (WriteHeader_new_statusCode 401)
  · intro v a T rest hv hs
    rw [authorize_split now req client v a T rest hv hs]
    constructor
    · intro hmiss
      rcases Get_cases client ("token:" ++ T) now with ⟨m, _, e⟩ | ⟨u, hq, hf, e⟩ | ⟨_, _, e⟩
      · simp [e, WriteHeader_new_statusCode, WriteHeader_new_headerOf]
      · exfalso
        rcases hmiss with hfault | hnone
        · exact hfault hq
        · have hmem := List.mem_of_find?_eq_some hf
          have hp := List.find?_some hf
          simp only [decide_eq_true_eq] at hp
          exact hnone u hmem hp.1 hp.2
      · simp [e, WriteHeader_new_statusCode, WriteHeader_new_headerOf]
    · intro e0 hq hf
      rcases Get_cases client ("token:" ++ T) now with ⟨m, hq2, _⟩ | ⟨u, _, hf2, e⟩ | ⟨_, hf2, _⟩
      · rw [hq] at hq2; cases hq2
      · rw [hf] at hf2
        cases hf2
        simp only [e, if_true]
        exact SetHeader_new_WriteHeader _ _ 200
      · rw [hf] at hf2; cases hf2

theorem authorize_status_witness :
    ((authorize 0 { Header := [("Authorization", ["Bearer t"])], Body := Payload.decoded () }
        sampleRedis).1.statusCode = 200 ∧
      (authorize 0 { Header := [("Authorization", ["Bearer t"])], Body := Payload.decoded () }
        sampleRedis).1.headerOf "Authorization" = some "Bearer jwt") ∧
    ((authorize 10 { Header := [("Authorization", ["Bearer t"])], Body := Payload.decoded () }
        sampleRedis).1.statusCode = 401 ∧
      (authorize 10 { Header := [("Authorization", ["Bearer t"])], Body := Payload.decoded () }
        sampleRedis).1.headerOf "Authorization" = none) :=
  ⟨((authorize_status 0
      { Header := [("Authorization", ["Bearer t"])], Body := Payload.decoded () }
      sampleRedis).2 "Bearer t" "" "t" [] (by decide) (by decide)).2
      ("token:t", "jwt", 10) rfl (by decide),
    ((authorize_status 10
      { Header := [("Authorization", ["Bearer t"])], Body := Payload.decoded () }
      sampleRedis).2 "Bearer t" "" "t" [] (by decide) (by decide)).1
      (Or.inr (by decide))⟩

end Users
